import Mathlib

/-!
A shallow embedding of the investi-backend service (FastAPI + yfinance +
Gemini) and proofs about it.

Modelling conventions, used throughout:

* Python `float` arithmetic is idealised as exact rational arithmetic (`ℚ`).
  Python's `round(x, n)` (round-half-to-even) is modelled exactly on `ℚ` by
  `rhe` / `round2` / `round4` below.
* All network / database / LLM interactions are external to the repository;
  they enter the embedding as explicit inputs (the fetched data, the decoded
  token, the LLM outcome, ...), so every function here is total and
  executable.  A Python `try/except` around such an interaction becomes a
  `match` on an `Except`-valued input.
* Python strings are modelled by Lean `String`; `str.upper` / `str.lower`
  are modelled per-character by `Char.toUpper` / `Char.toLower` (ASCII).
  The repository's keywords, stop words and tickers are all ASCII, so the
  distinction from full-Unicode case mapping is immaterial to the claims.
-/

/- ───────────────────────── Rounding (Python `round`) ───────────────────── -/

/-- Round-half-to-even of a rational to an integer, exactly the behaviour of
Python's builtin `round` on an exact value. -/
def rhe (x : ℚ) : ℤ :=
  let f := ⌊x⌋
  let r := x - (f : ℚ)
  if r < 1/2 then f
  else if 1/2 < r then f + 1
  else if f % 2 = 0 then f else f + 1

/-- Python `round(x, 2)`. -/
def round2 (q : ℚ) : ℚ := (rhe (q * 100) : ℚ) / 100

/-- Python `round(x, 4)`. -/
def round4 (q : ℚ) : ℚ := (rhe (q * 10000) : ℚ) / 10000

theorem rhe_def (x : ℚ) : rhe x =
    if x - ((⌊x⌋ : ℤ) : ℚ) < 1/2 then ⌊x⌋
    else if 1/2 < x - ((⌊x⌋ : ℤ) : ℚ) then ⌊x⌋ + 1
    else if ⌊x⌋ % 2 = 0 then ⌊x⌋ else ⌊x⌋ + 1 := rfl

theorem rhe_intCast (n : ℤ) : rhe (n : ℚ) = n := by
  rw [rhe_def]
  simp

theorem rhe_zero : rhe 0 = 0 := by
  simpa using rhe_intCast 0

theorem round2_zero : round2 0 = 0 := by
  simp [round2, rhe_zero]

theorem rhe_eq_zero_of_abs_le (x : ℚ) (h : |x| ≤ 1/2) : rhe x = 0 := by
  rcases abs_le.mp h with ⟨h1, h2⟩
  rcases le_or_lt 0 x with hx | hx
  · have hf : ⌊x⌋ = 0 := Int.floor_eq_zero_iff.mpr ⟨hx, by linarith⟩
    rw [rhe_def, hf]
    split_ifs with g1 g2 g3
    · rfl
    · exfalso; push_cast at g2; linarith
    · rfl
    · exfalso; exact g3 rfl
  · have hf : ⌊x⌋ = -1 := by
      rw [Int.floor_eq_iff]
      constructor
      · push_cast; linarith
      · push_cast; linarith
    rw [rhe_def, hf]
    split_ifs with g1 g2 g3
    · exfalso; push_cast at g1; linarith
    · norm_num
    · exfalso; omega
    · norm_num

theorem rhe_sub_abs_le (x : ℚ) : |(rhe x : ℚ) - x| ≤ 1/2 := by
  have hfl : ((⌊x⌋ : ℤ) : ℚ) ≤ x := Int.floor_le x
  have hfu : x < ((⌊x⌋ : ℤ) : ℚ) + 1 := Int.lt_floor_add_one x
  rw [rhe_def]
  split_ifs with g1 g2 g3 <;>
    · rw [abs_le]
      constructor <;> push_cast at g1 ⊢ <;> try push_cast at g2 <;> try linarith
      all_goals linarith

theorem round2_idem (q : ℚ) : round2 (round2 q) = round2 q := by
  unfold round2
  have h : ((rhe (q * 100) : ℤ) : ℚ) / 100 * 100 = ((rhe (q * 100) : ℤ) : ℚ) := by
    field_simp
  rw [h, rhe_intCast]

theorem round2_sub_abs_le (q : ℚ) : |round2 q - q| ≤ 1/200 := by
  have h := rhe_sub_abs_le (q * 100)
  unfold round2
  have heq : (rhe (q * 100) : ℚ) / 100 - q = ((rhe (q * 100) : ℚ) - q * 100) / 100 := by
    ring
  rw [heq, abs_div, show |(100 : ℚ)| = 100 by norm_num,
    div_le_iff₀ (by norm_num : (0:ℚ) < 100)]
  calc |(rhe (q * 100) : ℚ) - q * 100| ≤ 1/2 := h
    _ ≤ 1/200 * 100 := by norm_num

theorem round2_of_round2_sub (q : ℚ) : round2 (round2 q - q) = 0 := by
  have h : rhe ((round2 q - q) * 100) = 0 := by
    apply rhe_eq_zero_of_abs_le
    rw [abs_mul, show |(100:ℚ)| = 100 by norm_num]
    calc |round2 q - q| * 100 ≤ 1/200 * 100 :=
          mul_le_mul_of_nonneg_right (round2_sub_abs_le q) (by norm_num)
      _ = 1/2 := by norm_num
  rw [show round2 (round2 q - q) = ((rhe ((round2 q - q) * 100) : ℤ) : ℚ) / 100 from rfl, h]
  norm_num

/- ───────────────────────── Shared string helpers ───────────────────────── -/

/-- Python `str.upper()` (ASCII case mapping, see the header note). -/
def pyUpper (s : String) : String := String.mk (s.toList.map Char.toUpper)

/-- Python `str.lower()` (ASCII case mapping, see the header note). -/
def pyLower (s : String) : String := String.mk (s.toList.map Char.toLower)

/-- Two decimal digits with a leading zero, as `"%02d"`. -/
def twoDigits (n : ℕ) : String := (if n < 10 then "0" else "") ++ toString n

/-- Helper for `fmtThousands`: digits given least-significant first, a comma
inserted after every three. -/
def commaRev : List Char → ℕ → List Char
  | [], _ => []
  | c :: cs, n =>
    (if n ≠ 0 ∧ n % 3 = 0 then [',', c] else [c]) ++ commaRev cs (n + 1)

/-- A natural number printed with thousands separators, as in `"{:,}"`. -/
def fmtThousands (m : ℕ) : String :=
  String.mk ((commaRev (toString m).toList.reverse 0).reverse)

/-- Python `f"{x:,.2f}"` on an exact rational: round-half-even to two
decimals, thousands separators in the integer part. -/
def fmtComma2 (q : ℚ) : String :=
  let n := rhe (q * 100)
  (if n < 0 then "-" else "") ++ fmtThousands (n.natAbs / 100) ++ "." ++ twoDigits (n.natAbs % 100)

/-- Python `f"{x:+.2f}"` on an exact rational.  (A float `-0.0` would print
as `"-0.00"`; rationals carry no signed zero, so an exact zero prints
`"+0.00"`, as does the float `0.0` the code produces when `change` is
exactly zero.) -/
def fmtSigned2 (q : ℚ) : String :=
  let n := rhe (q * 100)
  (if n < 0 then "-" else "+") ++ toString (n.natAbs / 100) ++ "." ++ twoDigits (n.natAbs % 100)

/-- Python `str.strip()`: whitespace removed from both ends.  (Implemented
on the character list: `String.trim`'s byte-position arithmetic does not
reduce in the kernel.) -/
def pyStrip (s : String) : String :=
  String.mk (((s.toList.dropWhile Char.isWhitespace).reverse.dropWhile Char.isWhitespace).reverse)

/-- Python truthiness of an optional string: `None` and `""` are falsy. -/
def pyTruthyStrOpt : Option String → Bool
  | none => false
  | some s => !(s = "")

/-- `a or b` for Python's optional-string idiom `info.get(..) or fallback`. -/
def pyOrStr (a : Option String) (b : String) : String :=
  match a with
  | some s => if s = "" then b else s
  | none => b

/- ───────────────────────── market_data.py ──────────────────────────────── -/

/-- One entry of the curated `TOP_ASSETS` table. -/
structure AssetSpec where
  ticker : String
  name : String
  category : String
deriving DecidableEq, Repr

/-- market_data.TOP_ASSETS, in source order. -/
def TOP_ASSETS : List AssetSpec := [
  ⟨"AAPL", "Apple", "Acciones"⟩,
  ⟨"TSLA", "Tesla", "Acciones"⟩,
  ⟨"GOOGL", "Google", "Acciones"⟩,
  ⟨"MSFT", "Microsoft", "Acciones"⟩,
  ⟨"NVDA", "NVIDIA", "Acciones"⟩,
  ⟨"AMZN", "Amazon", "Acciones"⟩,
  ⟨"BTC-USD", "Bitcoin", "Cripto"⟩,
  ⟨"ETH-USD", "Ethereum", "Cripto"⟩,
  ⟨"SPY", "S&P 500 ETF", "ETFs"⟩]

/-- market_data.KEYWORD_TO_TICKER.  A Python `dict` preserves insertion
order, so it is embedded as an association list in source order; lookups by
key and the `for keyword, ticker in ...items()` loop both follow this
order. -/
def KEYWORD_TO_TICKER : List (String × String) := [
  ("apple", "AAPL"), ("aapl", "AAPL"),
  ("tesla", "TSLA"), ("tsla", "TSLA"),
  ("google", "GOOGL"), ("alphabet", "GOOGL"), ("googl", "GOOGL"),
  ("microsoft", "MSFT"), ("msft", "MSFT"),
  ("amazon", "AMZN"), ("amzn", "AMZN"),
  ("nvidia", "NVDA"), ("nvda", "NVDA"),
  ("meta", "META"), ("facebook", "META"),
  ("netflix", "NFLX"), ("nflx", "NFLX"),
  ("uber", "UBER"),
  ("airbnb", "ABNB"),
  ("disney", "DIS"),
  ("samsung", "005930.KS"),
  ("bitcoin", "BTC-USD"), ("btc", "BTC-USD"),
  ("ethereum", "ETH-USD"), ("eth", "ETH-USD"),
  ("solana", "SOL-USD"), ("sol", "SOL-USD"),
  ("cardano", "ADA-USD"), ("ada", "ADA-USD"),
  ("dogecoin", "DOGE-USD"), ("doge", "DOGE-USD"),
  ("ripple", "XRP-USD"), ("xrp", "XRP-USD"),
  ("sp500", "SPY"), ("spy", "SPY"), ("s&p", "SPY"),
  ("nasdaq", "QQQ"), ("qqq", "QQQ"),
  ("oro", "GLD"), ("gold", "GLD"), ("gld", "GLD")]

/-- The success dictionary `_get_yfinance_data` returns. -/
structure Snapshot where
  source : String
  ticker : String
  name : String
  price : String
  change : String
  change_percent : String
  currency : String
deriving DecidableEq, Repr

/-- `hist["Close"].iloc[-1]` over the non-null closes (list known nonempty at
every use site; the default is never read). -/
def latestOf (cs : List ℚ) : ℚ := cs.getLastD 0

/-- `hist["Close"].iloc[-2] if len(hist) >= 2 else price`. -/
def prevOf (cs : List ℚ) : ℚ :=
  if 2 ≤ cs.length then cs.getD (cs.length - 2) 0 else latestOf cs

/-- `change = price - prev_price`. -/
def changeOf (cs : List ℚ) : ℚ := latestOf cs - prevOf cs

/-- `change_pct = (change / prev_price) * 100 if prev_price != 0 else 0`. -/
def changePctOf (cs : List ℚ) : ℚ :=
  if prevOf cs ≠ 0 then changeOf cs / prevOf cs * 100 else 0

/-- market_data._get_yfinance_data.  `histResult` is the outcome of
`yf.Ticker(..).history(period="2d")` — a row list of optional closes
(`dropna` removes the `none`s) or an exception; `infoResult` is the outcome
of reading `ticker.info` (its `longName` / `shortName` fields).  Everything
after the fetches is the function's own computation, modelled exactly. -/
def yfinance_data (histResult : Except Unit (List (Option ℚ)))
    (infoResult : Except Unit (Option String × Option String))
    (tickerSymbol : String) : Except String Snapshot :=
  match histResult with
  | .error _ => .error s!"No se pudo obtener datos para '{tickerSymbol}'"
  | .ok rows =>
    if rows.length = 0 then .error s!"No se encontraron datos para '{tickerSymbol}'"
    else
      let cs := rows.filterMap id
      if cs.length < 1 then .error s!"No hay datos de cierre para '{tickerSymbol}'"
      else
        let price := latestOf cs
        let name := match infoResult with
          | .error _ => pyUpper tickerSymbol
          | .ok (long, short) => pyOrStr long (pyOrStr short (pyUpper tickerSymbol))
        .ok {
          source := "yfinance",
          ticker := pyUpper tickerSymbol,
          name := name,
          price := fmtComma2 price,
          change := fmtSigned2 (changeOf cs),
          change_percent := fmtSigned2 (changePctOf cs) ++ "%",
          currency := "USD" }

/-- One entry appended by the batch loop of `get_top_assets`. -/
structure TopEntry where
  ticker : String
  name : String
  category : String
  price : ℚ
  change : ℚ
  change_pct : ℚ
  currency : String
deriving DecidableEq, Repr

/-- The body of the `for asset in TOP_ASSETS` batch loop: `colResult` is the
outcome of selecting this ticker's Close column from the batch download
(an exception there is caught by the inner `except ... continue`). -/
def topAssetEntry (asset : AssetSpec) (colResult : Except Unit (List (Option ℚ))) :
    Option TopEntry :=
  match colResult with
  | .error _ => none
  | .ok col =>
    let cs := col.filterMap id
    if cs.length < 1 then none
    else some {
      ticker := asset.ticker,
      name := asset.name,
      category := asset.category,
      price := round2 (latestOf cs),
      change := round2 (changeOf cs),
      change_pct := round2 (changePctOf cs),
      currency := "USD" }

/-- `get_top_assets` returns a heterogeneous list: batch entries carry the
rounded numeric fields; fallback entries are single-ticker snapshots with the
asset's category attached. -/
inductive TopItem where
  | batchEntry (e : TopEntry)
  | fallbackSnap (s : Snapshot) (category : String)
deriving DecidableEq, Repr

/-- market_data.get_top_assets.  `batchResult` is the outcome of the
`yf.download` batch call, giving each ticker's Close column; on total batch
failure the code falls back to per-ticker `_get_yfinance_data` calls whose
fetch outcomes are `histOf` / `infoOf`, skipping tickers that fail. -/
def get_top_assets
    (batchResult : Except Unit (String → Except Unit (List (Option ℚ))))
    (histOf : String → Except Unit (List (Option ℚ)))
    (infoOf : String → Except Unit (Option String × Option String)) : List TopItem :=
  match batchResult with
  | .ok colOf =>
    TOP_ASSETS.filterMap fun a => (topAssetEntry a (colOf a.ticker)).map TopItem.batchEntry
  | .error _ =>
    TOP_ASSETS.filterMap fun a =>
      match yfinance_data (histOf a.ticker) (infoOf a.ticker) a.ticker with
      | .ok s => some (TopItem.fallbackSnap s a.category)
      | .error _ => none

/-- market_data.get_market_data: reject empty / `"UNKNOWN"` queries, resolve
the ticker through `KEYWORD_TO_TICKER` (falling back to `query.upper()`),
then fetch.  `histOf` / `infoOf` are the single-ticker fetch oracles. -/
def get_market_data (histOf : String → Except Unit (List (Option ℚ)))
    (infoOf : String → Except Unit (Option String × Option String))
    (query : String) : Except String Snapshot :=
  if query = "" ∨ query = "UNKNOWN" then
    .error "No se identificó un activo válido en tu mensaje"
  else
    let ticker := ((KEYWORD_TO_TICKER.find? (fun p => p.1 = pyLower query)).map Prod.snd).getD
      (pyUpper query)
    yfinance_data (histOf ticker) (infoOf ticker) ticker

/- ───────────────────────── calculator.py ───────────────────────────────── -/

/-- calculator.ASSET_NAMES. -/
def ASSET_NAMES : List (String × String) := [
  ("AAPL", "Apple Inc."),
  ("TSLA", "Tesla Inc."),
  ("GOOGL", "Alphabet (Google)"),
  ("AMZN", "Amazon.com Inc."),
  ("MSFT", "Microsoft Corp."),
  ("NVDA", "NVIDIA Corp."),
  ("META", "Meta Platforms"),
  ("BTC-USD", "Bitcoin"),
  ("ETH-USD", "Ethereum"),
  ("SPY", "S&P 500 ETF"),
  ("QQQ", "Nasdaq 100 ETF"),
  ("GLD", "Gold ETF")]

/-- One element of `monthly_breakdown`. -/
structure BreakdownEntry where
  month : ℕ
  value : ℚ
  gain : ℚ
  gain_pct : ℚ
deriving DecidableEq, Repr

/-- The success dictionary of `calculate_projection`.  The source also
stores `annualized_return_pct = round(((final_value / amount) ** (1 / years)
- 1) * 100, 2)`, a real-valued fractional power outside ℚ; it is derived
from `final_value` and `amount` only, no claim under scrutiny mentions it,
and carrying an `ℝ` field would make the embedding non-executable, so that
one output field is left out of the record. -/
structure ProjectionResult where
  ticker : String
  asset_name : String
  initial_amount : ℚ
  final_value : ℚ
  total_gain : ℚ
  total_gain_pct : ℚ
  avg_monthly_return_pct : ℚ
  monthly_breakdown : List BreakdownEntry
  data_period : String
  disclaimer : String
deriving DecidableEq, Repr

/-- The last close of the rows whose calendar-month key is `k`
(`resample("ME").last()` for one bucket). -/
def lastCloseAt (hist : List (ℤ × ℚ)) (k : ℤ) : Option ℚ :=
  ((hist.filter (fun row => row.1 = k)).getLast?).map Prod.snd

/-- `hist["Close"].resample("ME").last()`.  A history row is a pair of its
date's calendar-month key (consecutive months get consecutive integers) and
its close; the index is chronologically sorted, as the provider returns it.
Pandas produces one bucket per calendar month between the first and last
index entry, with `NaN` (here `none`) for months without rows. -/
def resampleME (hist : List (ℤ × ℚ)) : List (ℤ × Option ℚ) :=
  match hist.head?, hist.getLast? with
  | some first, some last =>
    (List.range (last.1 - first.1 + 1).toNat).map
      (fun i => (first.1 + (i : ℤ), lastCloseAt hist (first.1 + (i : ℤ))))
  | _, _ => []

/-- `monthly_prices.pct_change().dropna()`: period-over-period returns of
consecutive buckets, dropping every pair touching a missing bucket.  (For a
zero previous close pandas produces an infinite float; `ℚ` division by zero
gives `0` here — the claims under scrutiny never depend on the value.) -/
def pctChangeDropna (ps : List (Option ℚ)) : List ℚ :=
  (ps.zip ps.tail).filterMap fun pair =>
    match pair with
    | (some a, some b) => some (b / a - 1)
    | _ => none

/-- `Series.mean()`.  For an empty series pandas gives `NaN`; here `0/0 = 0`
in `ℚ` — again no claim depends on the value. -/
def mean (xs : List ℚ) : ℚ := xs.sum / (xs.length : ℚ)

/-- `float(monthly_returns.mean())` as computed by `calculate_projection`. -/
def avgMonthlyReturn (hist : List (ℤ × ℚ)) : ℚ :=
  mean (pctChangeDropna ((resampleME hist).map Prod.snd))

/-- The `for m in range(1, months + 1)` projection loop: `current` is the
running unrounded value, `m` the next month index, `fuel` the remaining
iterations. -/
def projLoopGo (amount avg current : ℚ) (m fuel : ℕ) : List BreakdownEntry :=
  match fuel with
  | 0 => []
  | f + 1 =>
    let c := current * (1 + avg)
    { month := m, value := round2 c, gain := round2 (c - amount),
      gain_pct := round2 ((c - amount) / amount * 100) } :: projLoopGo amount avg c (m + 1) f

/-- `data_period`: the source renders the first and last monthly bucket via
`strftime('%b %Y')`; the pure-date formatting is abstracted to the month
key's numeral (no claim inspects this string). -/
def dataPeriodOf (monthly : List (ℤ × Option ℚ)) : String :=
  let first := (monthly.head?.map Prod.fst).getD 0
  let last := (monthly.getLast?.map Prod.fst).getD 0
  s!"{first} – {last}"

/-- calculator.calculate_projection.  `fetch` is the outcome of
`yf.Ticker(ticker).history(period="2y")` — the daily rows (month key,
close), or the exception raised while fetching (any exception inside the
`try` is caught and turned into the final error message).  With
`months = 0` — excluded by the request schema — the loop yields no entries
and `monthly_breakdown[-1]` raises an `IndexError`, caught by the same
handler; the `getLast? = none` branch mirrors that. -/
def calculate_projection (ticker : String) (amount : ℚ) (months : ℕ)
    (fetch : Except String (List (ℤ × ℚ))) : Except String ProjectionResult :=
  let T := pyStrip (pyUpper ticker)
  match fetch with
  | .error e => .error s!"No se pudo calcular la proyección para {T}: {e}"
  | .ok hist =>
    if hist.length = 0 ∨ hist.length < 20 then
      .error s!"No hay datos históricos suficientes para {T}"
    else
      let monthly := resampleME hist
      if monthly.length < 2 then
        .error s!"Datos insuficientes para calcular retorno mensual de {T}"
      else
        let avg := avgMonthlyReturn hist
        let breakdown := projLoopGo amount avg amount 1 months
        match breakdown.getLast? with
        | none => .error s!"No se pudo calcular la proyección para {T}: list index out of range"
        | some lastE =>
          let fv := lastE.value
          let tg := fv - amount
          .ok {
            ticker := T,
            asset_name := ((ASSET_NAMES.find? (fun p => p.1 = T)).map Prod.snd).getD T,
            initial_amount := round2 amount,
            final_value := round2 fv,
            total_gain := round2 tg,
            total_gain_pct := round2 (tg / amount * 100),
            avg_monthly_return_pct := round4 (avgMonthlyReturn hist * 100),
            monthly_breakdown := breakdown,
            data_period := dataPeriodOf monthly,
            disclaimer := "Este cálculo es estimativo, basado en rendimientos históricos promedio. El rendimiento pasado no garantiza resultados futuros. No constituye asesoría financiera oficial." }

/-- main.calculate_endpoint (`POST /api/calculate`): an error result becomes
`HTTPException(status_code=422, detail=result["error"])`. -/
def calculate_endpoint (ticker : String) (amount : ℚ) (months : ℕ)
    (fetch : Except String (List (ℤ × ℚ))) : Except (ℕ × String) ProjectionResult :=
  match calculate_projection ticker amount months fetch with
  | .error e => .error (422, e)
  | .ok r => .ok r

/- ───────────────────────── ai_advisor.py: risk questions ───────────────── -/

/-- ai_advisor.RISK_QUESTIONS, verbatim. -/
def RISK_QUESTIONS : List String := [
  "1️⃣ **¿Cuál es tu objetivo principal al invertir?**\n   a) Conservar mi dinero y protegerme de la inflación\n   b) Crecer moderadamente con riesgo controlado\n   c) Maximizar el crecimiento aunque implique alta volatilidad",
  "2️⃣ **Si tu inversión cayera un 20% en un mes, ¿qué harías?**\n   a) Vendería todo para evitar más pérdidas\n   b) Esperaría a que se recupere sin hacer nada\n   c) Compraría más, es una oportunidad de precio bajo",
  "3️⃣ **¿Cuánto tiempo planeas mantener tu inversión?**\n   a) Menos de 1 año\n   b) Entre 1 y 5 años\n   c) Más de 5 años",
  "4️⃣ **¿Con qué porcentaje de tus ahorros estás dispuesto a asumir riesgo?**\n   a) Menos del 20%\n   b) Entre el 20% y el 50%\n   c) Más del 50%, busco retornos altos",
  "5️⃣ **¿Cuál de estas frases describe mejor tu situación financiera?**\n   a) Tengo ingresos fijos y no puedo permitirme grandes pérdidas\n   b) Tengo estabilidad pero quiero hacer crecer mi patrimonio\n   c) Tengo ingresos variables y alta tolerancia a la incertidumbre"]

/-- ai_advisor.get_risk_question: a question by 0-based index (a Python
`int`, so `ℤ`), with the `*Pregunta i de n*` footer; out of range gives
`""`. -/
def get_risk_question (question_number : ℤ) : String :=
  if 0 ≤ question_number ∧ question_number < (RISK_QUESTIONS.length : ℤ) then
    let cur := question_number + 1
    let tot := RISK_QUESTIONS.length
    RISK_QUESTIONS.getD question_number.toNat "" ++ s!"\n\n*Pregunta {cur} de {tot}*"
  else ""

/- ───────────────────────── ai_advisor.py: ticker extraction ────────────── -/

/-- ai_advisor.STOP_WORDS (the source set literal repeats "ESTA" and
"TIENE"; only membership matters). -/
def STOP_WORDS : List String := [
  "HOY", "COMO", "ESTA", "ACCION", "RIESGO", "BAJO", "INVERTIR",
  "SECTORES", "PRECIO", "PARA", "QUE", "UNA", "LAS", "LOS", "DEL",
  "CON", "POR", "MAS", "SUS", "HAY", "SON", "CUAL", "ESTA",
  "DEBO", "PUEDO", "DEBERIA", "QUIERO", "HACER", "TIENE", "TIENE",
  "CUANTO", "VALE", "COTIZA", "MERCADO", "BOLSA", "MEJOR", "PEOR"]

/-- The character class of `re.sub(r"[¿?¡!.,;:\"'()\n]", " ", message)`. -/
def PUNCT_CHARS : List Char := ['¿', '?', '¡', '!', '.', ',', ';', ':', '"', '\'', '(', ')', '\n']

/-- Python `str.split()`: split on whitespace runs, dropping empty tokens
(`acc` holds the current token reversed). -/
def splitWsGo : List Char → List Char → List (List Char)
  | [], acc => if acc.isEmpty then [] else [acc.reverse]
  | c :: cs, acc =>
    if c.isWhitespace then
      (if acc.isEmpty then splitWsGo cs [] else acc.reverse :: splitWsGo cs [])
    else splitWsGo cs (c :: acc)

/-- `re.sub(r"[¿?¡!.,;:\"'()\n]", " ", message).split()`. -/
def wordsOf (message : String) : List (List Char) :=
  splitWsGo (message.toList.map (fun c => if PUNCT_CHARS.contains c then ' ' else c)) []

/-- The character class `[A-Z]`. -/
def isUpperAZ (c : Char) : Bool := 'A' ≤ c ∧ c ≤ 'Z'

/-- `re.sub(r"[^A-Z]", "", word.upper())`. -/
def cleanWord (w : List Char) : List Char := (w.map Char.toUpper).filter isUpperAZ

/-- The loop-body test `2 <= len(clean) <= 5 and clean not in STOP_WORDS`. -/
def goodToken (clean : List Char) : Bool :=
  2 ≤ clean.length && clean.length ≤ 5 && !(STOP_WORDS.contains (String.mk clean))

/-- `needle` is an initial segment of `hay` (character-exact). -/
def leadMatch : List Char → List Char → Bool
  | [], _ => true
  | _ :: _, [] => false
  | a :: as, b :: bs => a = b && leadMatch as bs

/-- Python's substring test `needle in hay`. -/
def substrHit (needle : List Char) : List Char → Bool
  | [] => leadMatch needle []
  | hay@(_ :: rest) => leadMatch needle hay || substrHit needle rest

/-- The `for keyword, ticker in KEYWORD_TO_TICKER.items()` loop with its
early `return ticker` on `keyword in lower_msg`. -/
def keywordScan : List (String × String) → List Char → Option String
  | [], _ => none
  | (kw, tk) :: rest, m => if substrHit kw.toList m then some tk else keywordScan rest m

/-- Up to `n` leading `[A-Z]` characters and the remainder (the greedy
`[A-Z]{1,5}` of the cash-tag pattern). -/
def takeAZUpTo : ℕ → List Char → List Char × List Char
  | 0, cs => ([], cs)
  | _ + 1, [] => ([], [])
  | n + 1, c :: cs =>
    if isUpperAZ c then
      let p := takeAZUpTo n cs
      (c :: p.1, p.2)
    else ([], c :: cs)

/-- `re.search(r"\$([A-Z]{1,5}(?:-USD)?)", upper_message)`: the leftmost
`$` followed by at least one capital letter matches; the capture takes up to
five letters greedily, then the literal `-USD` when it follows directly. -/
def dollarScan : List Char → Option String
  | [] => none
  | c :: cs =>
    if c = '$' then
      let p := takeAZUpTo 5 cs
      if p.1.isEmpty then dollarScan cs
      else some (String.mk (p.1 ++ (if p.2.take 4 = ['-', 'U', 'S', 'D'] then ['-', 'U', 'S', 'D'] else [])))
    else dollarScan cs

/-- The `for word in words` fallback loop returning the first clean token
that passes `goodToken`. -/
def tokenScan : List (List Char) → Option (List Char)
  | [] => none
  | w :: rest =>
    let clean := cleanWord w
    if goodToken clean then some clean else tokenScan rest

/-- ai_advisor.extract_ticker_from_message, stage for stage: the keyword
loop, then the cash-tag search on the uppercased message, then the token
fallback, else `"UNKNOWN"`. -/
def extract_ticker_from_message (message : String) : String :=
  let words := wordsOf message
  let lowerMsg := message.toList.map Char.toLower
  match keywordScan KEYWORD_TO_TICKER lowerMsg with
  | some tk => tk
  | none =>
    match dollarScan (message.toList.map Char.toUpper) with
    | some s => s
    | none =>
      match tokenScan words with
      | some clean => String.mk clean
      | none => "UNKNOWN"

/-- The resolver as the spec words it (the refinement target): (1) the
ticker of the first keyword of the mapping — in mapping iteration order —
contained in the lowercased message; otherwise (2) the cash-tag capture;
otherwise (3) the first punctuation-stripped token whose letters-only
uppercased form has length 2–5 and is not a stop word; otherwise
`"UNKNOWN"`. -/
def resolveSpec (message : String) : String :=
  let lowerMsg := message.toList.map Char.toLower
  match (KEYWORD_TO_TICKER.find? fun p => substrHit p.1.toList lowerMsg).map Prod.snd with
  | some tk => tk
  | none =>
    match dollarScan (message.toList.map Char.toUpper) with
    | some s => s
    | none =>
      match ((wordsOf message).map cleanWord).find? goodToken with
      | some clean => String.mk clean
      | none => "UNKNOWN"

/- ───────────────────────── ai_advisor.py: risk classifier ──────────────── -/

/-- What `json.loads` (external stdlib, an oracle here) can hand back: a
string-valued object — the only shape the code reads fields from — or any
other JSON value, on which `.get` raises `AttributeError` (caught by the
handler like every other exception). -/
inductive PyJson where
  | obj (fields : List (String × String))
  | nonObj
deriving DecidableEq, Repr

/-- `data.get(key, dflt)`. -/
def jsonGetD (fields : List (String × String)) (key dflt : String) : String :=
  ((fields.find? (fun p => p.1 = key)).map Prod.snd).getD dflt

/-- The result dictionary of `evaluate_risk_profile`. -/
structure RiskResult where
  profile : String
  explanation : String
  recommendations : String
deriving DecidableEq, Repr

/-- The fixed dictionary of the `except` handler of
`evaluate_risk_profile`. -/
def riskDefaultResult : RiskResult :=
  { profile := "Moderado",
    explanation := "No pudimos procesar tu test completamente, pero te asignamos un perfil Moderado por defecto.",
    recommendations := "Considera ETFs diversificados como SPY o QQQ como punto de partida." }

/-- The outcome of one external LLM call: the raised exception's message, or
the response text. -/
inductive LLMOutcome where
  | failure (msg : String)
  | success (text : String)

/-- `RISK_QUESTIONS[i].split(chr(10))[0]`. -/
def firstLine (s : String) : String := String.mk (s.toList.takeWhile (fun c => c ≠ '\n'))

/-- One `P{i}: ...\nR{i}: ...` pair of the rubric prompt. -/
def qaLine (answers : List String) (i : ℕ) : String :=
  let n := i + 1
  let q := firstLine (RISK_QUESTIONS.getD i "")
  let a := answers.getD i ""
  s!"P{n}: {q}\nR{n}: {a}"

/-- `qa_text`: the first `min(len(answers), 5)` question/answer pairs. -/
def qaText (answers : List String) : String :=
  String.intercalate "\n" ((List.range (min answers.length 5)).map (qaLine answers))

/-- The rubric prompt of `evaluate_risk_profile`, verbatim (the doubled
braces of the f-string denote literal braces). -/
def buildRiskPrompt (answers : List String) (userName : Option String) : String :=
  let namePart := match userName with
    | some nm => s!"El usuario se llama {nm}."
    | none => ""
  let qa := qaText answers
  "\nActúa como un asesor financiero experto. " ++ namePart ++
  "\nEl usuario ha respondido el Test de Perfil de Riesgo:\n\n" ++ qa ++
  "\n\nTAREA: Analiza las respuestas y:\n1. Clasifica al usuario como exactamente UNO de: **Conservador**, **Moderado**, o **Agresivo**\n2. Explica brevemente por qué (2-3 oraciones, tono cálido y personalizado)\n3. Da 2 recomendaciones de activos concretas y apropiadas para su perfil\n\nResponde EXACTAMENTE en este formato JSON (sin markdown, solo JSON puro):\n\x7b\n  \"profile\": \"Conservador|Moderado|Agresivo\",\n  \"explanation\": \"Tu explicación aquí...\",\n  \"recommendations\": \"Tus recomendaciones aquí...\"\n\x7d\n"

/-- The backtick character (code point 96). -/
def backtickChar : Char := Char.ofNat 96

/-- `re.sub(r"```json|```", "", text)`: at each position, remove a leading
"```json", else a leading "```", else keep the character. -/
def removeFences : List Char → List Char
  | [] => []
  | c :: cs =>
    if c = backtickChar ∧ cs.take 2 = [backtickChar, backtickChar] then
      if (cs.drop 2).take 4 = ['j', 's', 'o', 'n'] then removeFences (cs.drop 6)
      else removeFences (cs.drop 2)
    else c :: removeFences cs
termination_by l => l.length
decreasing_by
  · simp only [List.length_drop, List.length_cons]; omega
  · simp only [List.length_drop, List.length_cons]; omega
  · simp only [List.length_cons]; omega

/-- ai_advisor.evaluate_risk_profile.  `llm` is the external Gemini call on
the built prompt (every exception inside the `try` — SDK construction,
network, a response without text — lands in `.failure`); `parseJson` is the
external `json.loads`.  The `except` handler returns `riskDefaultResult`;
a parsed object is read with per-field `.get` defaults. -/
def evaluate_risk_profile (answers : List String) (userName : Option String)
    (llm : String → LLMOutcome) (parseJson : String → Except String PyJson) : RiskResult :=
  match llm (buildRiskPrompt answers userName) with
  | .failure _ => riskDefaultResult
  | .success responseText =>
    let text := pyStrip (String.mk (removeFences (pyStrip responseText).toList))
    match parseJson text with
    | .error _ => riskDefaultResult
    | .ok PyJson.nonObj => riskDefaultResult
    | .ok (PyJson.obj fields) =>
      { profile := jsonGetD fields "profile" "Moderado",
        explanation := jsonGetD fields "explanation" "",
        recommendations := jsonGetD fields "recommendations" "" }

/- ───────────────────────── auth.py / router_auth.py ────────────────────── -/

/-- A row of the `users` table, as the login and token paths read it. -/
structure DBUser where
  id : ℕ
  name : String
  email : Option String
  password_hash : Option String
deriving DecidableEq, Repr

/-- router_auth.TokenResponse. -/
structure TokenResponse where
  access_token : String
  token_type : String
  user_id : ℕ
  name : String
deriving DecidableEq, Repr

/-- The one detail string of every failed login. -/
def loginFailMsg : String := "Email o contraseña incorrectos"

/-- router_auth.login.  `db` is the users table in query order (`.first()`
takes the first email match; SQL `NULL == x` is not true, hence the
`some username` comparison), `verify` the external bcrypt check, `sign` the
external token signing.  The guard is Python's
`not user or not user.password_hash or not verify_password(...)`:
a missing row, a `None` **or empty** stored hash, or a failed check all
raise the same 401. -/
def login (sign : ℕ → String) (verify : String → String → Bool) (db : List DBUser)
    (username password : String) : Except (ℕ × String) TokenResponse :=
  match db.find? (fun u => u.email = some username) with
  | none => .error (401, loginFailMsg)
  | some user =>
    if ¬ pyTruthyStrOpt user.password_hash then .error (401, loginFailMsg)
    else if ¬ verify password (user.password_hash.getD "") then .error (401, loginFailMsg)
    else .ok { access_token := sign user.id, token_type := "bearer",
               user_id := user.id, name := user.name }

/-- A failure of `get_current_user`: the `HTTPException` it raises on
purpose, or an exception that escapes it (the `int(user_id)` conversion sits
outside the `try`). -/
inductive AuthFailure where
  | httpError (status : ℕ) (detail : String)
  | uncaught (msg : String)
deriving DecidableEq, Repr

/-- The one `credentials_exception` of auth.get_current_user. -/
def credentialsException : AuthFailure := .httpError 401 "Token inválido o expirado"

/-- What `jwt.decode` hands back on success: the payload's optional `sub`
claim (`payload.get("sub")`). -/
structure TokenPayload where
  sub : Option String
deriving DecidableEq, Repr

/-- auth.get_current_user.  `decoded` is the outcome of the external
`jwt.decode` (`.error` = `JWTError`); `db` the users table.  An undecodable
token, a missing `sub` and a missing user all raise `credentials_exception`;
a non-numeric `sub` raises `ValueError` from `int(user_id)` outside the
`try` (modelled by `.uncaught`; `String.toInt?` stands in for `int()`). -/
def get_current_user (decoded : Except Unit TokenPayload) (db : List DBUser) :
    Except AuthFailure DBUser :=
  match decoded with
  | .error _ => .error credentialsException
  | .ok payload =>
    match payload.sub with
    | none => .error credentialsException
    | some s =>
      match s.toInt? with
      | none => .error (.uncaught s!"invalid literal for int: {s}")
      | some i =>
        match db.find? (fun u => (u.id : ℤ) = i) with
        | none => .error credentialsException
        | some u => .ok u

/- ───────────────────────── main.py: chat and risk-test routes ──────────── -/

/-- The response body of `POST /api/chat`; `market_data` is the (possibly
`None`) dictionary, which when present is either an error dict or a
snapshot. -/
structure ChatResponse where
  reply : String
  market_data : Option (Except String Snapshot)
  detected_ticker : String

/-- `market_data = get_market_data(ticker) if ticker != "UNKNOWN" else
None` of main.chat_endpoint. -/
def chatMarketRaw (histOf : String → Except Unit (List (Option ℚ)))
    (infoOf : String → Except Unit (Option String × Option String))
    (message : String) : Option (Except String Snapshot) :=
  if extract_ticker_from_message message ≠ "UNKNOWN" then
    some (get_market_data histOf infoOf (extract_ticker_from_message message))
  else none

/-- `if market_data and "error" in market_data: market_data = None` (an
error dict is nonempty, hence truthy). -/
def coerceMarket : Option (Except String Snapshot) → Option (Except String Snapshot)
  | some (.error _) => none
  | x => x

/-- main.chat_endpoint: extract the ticker, fetch market data unless the
ticker is `"UNKNOWN"`, null out an error dict, ask the advisor
(`get_unified_analysis`, an external LLM call abstracted as `advisor`,
receiving exactly the coerced market data), and answer. -/
def chat_endpoint (histOf : String → Except Unit (List (Option ℚ)))
    (infoOf : String → Except Unit (Option String × Option String))
    (advisor : String → String → Option (Except String Snapshot) → String)
    (message profile : String) : ChatResponse :=
  { reply := advisor message profile (coerceMarket (chatMarketRaw histOf infoOf message)),
    market_data := coerceMarket (chatMarketRaw histOf infoOf message),
    detected_ticker := extract_ticker_from_message message }

/-- The response body of `GET /api/risk-test/question/{number}`. -/
structure QuestionResponse where
  question_number : ℤ
  total_questions : ℕ
  question : String
deriving DecidableEq, Repr

/-- main.get_question: 400 outside 1..5, else the (number-1)-indexed
question with `total_questions = 5`. -/
def get_question (number : ℤ) : Except (ℕ × String) QuestionResponse :=
  if ¬ (1 ≤ number ∧ number ≤ 5) then
    .error (400, "Question number must be between 1 and 5")
  else
    .ok { question_number := number, total_questions := 5,
          question := get_risk_question (number - 1) }

deriving instance DecidableEq for Except

/- ───────────────────────── Projection-loop lemmas ──────────────────────── -/

theorem projLoopGo_length (amount avg current : ℚ) (m fuel : ℕ) :
    (projLoopGo amount avg current m fuel).length = fuel := by
  induction fuel generalizing current m with
  | zero => rfl
  | succ f ih => simp [projLoopGo, ih]

theorem projLoopGo_map_month (amount avg current : ℚ) (m fuel : ℕ) :
    (projLoopGo amount avg current m fuel).map (fun e => e.month) = List.range' m fuel := by
  induction fuel generalizing current m with
  | zero => rfl
  | succ f ih => simp [projLoopGo, ih, List.range']

theorem projLoopGo_value_round2 (amount avg current : ℚ) (m fuel : ℕ) :
    ∀ e ∈ projLoopGo amount avg current m fuel, ∃ x, e.value = round2 x := by
  induction fuel generalizing current m with
  | zero => intro e he; simp [projLoopGo] at he
  | succ f ih =>
    intro e he
    simp only [projLoopGo, List.mem_cons] at he
    rcases he with he | he
    · exact ⟨current * (1 + avg), by rw [he]⟩
    · exact ih _ _ e he

theorem projLoopGo_zero_avg (amount current : ℚ) (m fuel : ℕ) (hc : current = amount) :
    ∀ e ∈ projLoopGo amount 0 current m fuel,
      e.value = round2 amount ∧ e.gain = 0 ∧ e.gain_pct = 0 := by
  induction fuel generalizing current m with
  | zero => intro e he; simp [projLoopGo] at he
  | succ f ih =>
    intro e he
    simp only [projLoopGo, List.mem_cons] at he
    have hc1 : current * (1 + 0) = amount := by rw [hc]; ring
    rcases he with he | he
    · subst he
      refine ⟨by rw [hc1], ?_, ?_⟩
      · rw [hc1]; simp [round2_zero]
      · rw [hc1]; simp [round2_zero]
    · exact ih _ _ hc1 e he

theorem projLoopGo_ne_nil (amount avg current : ℚ) (m fuel : ℕ) (hf : 1 ≤ fuel) :
    projLoopGo amount avg current m fuel ≠ [] := by
  intro hnil
  have hl := projLoopGo_length amount avg current m fuel
  rw [hnil] at hl
  simp at hl
  omega

/- ───────────────────────── calculate_projection lemmas ─────────────────── -/

/-- `Except.ok`-ness as a boolean, to state success without naming the
result. -/
def exceptIsOk {ε α : Type} : Except ε α → Bool
  | .ok _ => true
  | .error _ => false

theorem exceptIsOk_elim {ε α : Type} (x : Except ε α) (h : exceptIsOk x = true) :
    ∃ r, x = .ok r := by
  cases x with
  | ok r => exact ⟨r, rfl⟩
  | error e => simp [exceptIsOk] at h

/-- `Except.error`-ness as a boolean. -/
def exceptIsErr {ε α : Type} : Except ε α → Bool
  | .ok _ => false
  | .error _ => true

theorem exceptIsErr_elim {ε α : Type} (x : Except ε α) (h : exceptIsErr x = true) :
    ∃ e, x = .error e := by
  cases x with
  | ok r => simp [exceptIsErr] at h
  | error e => exact ⟨e, rfl⟩

theorem calculate_ok_exists (ticker : String) (amount : ℚ) (months : ℕ)
    (h : List (ℤ × ℚ)) (h20 : 20 ≤ h.length) (h2 : 2 ≤ (resampleME h).length)
    (hm : 1 ≤ months) :
    ∃ r, calculate_projection ticker amount months (.ok h) = .ok r := by
  have hlen : ¬ (h.length = 0 ∨ h.length < 20) := by omega
  have hnn := projLoopGo_ne_nil amount (avgMonthlyReturn h) amount 1 months hm
  have hlast := List.getLast?_eq_getLast_of_ne_nil hnn
  apply exceptIsOk_elim
  simp only [calculate_projection]
  rw [if_neg hlen, if_neg (by omega : ¬ (resampleME h).length < 2), hlast]
  rfl

theorem calculate_ok_elim (ticker : String) (amount : ℚ) (months : ℕ)
    (h : List (ℤ × ℚ)) (r : ProjectionResult)
    (hok : calculate_projection ticker amount months (.ok h) = .ok r) :
    ∃ lastE, (projLoopGo amount (avgMonthlyReturn h) amount 1 months).getLast? = some lastE ∧
      r.monthly_breakdown = projLoopGo amount (avgMonthlyReturn h) amount 1 months ∧
      r.final_value = round2 lastE.value ∧
      r.total_gain = round2 (lastE.value - amount) ∧
      r.total_gain_pct = round2 ((lastE.value - amount) / amount * 100) ∧
      r.ticker = pyStrip (pyUpper ticker) ∧
      r.initial_amount = round2 amount := by
  simp only [calculate_projection] at hok
  by_cases hlen : h.length = 0 ∨ h.length < 20
  · rw [if_pos hlen] at hok; exact absurd hok (by simp)
  · rw [if_neg hlen] at hok
    by_cases h2 : (resampleME h).length < 2
    · rw [if_pos h2] at hok; exact absurd hok (by simp)
    · rw [if_neg h2] at hok
      cases hlast : (projLoopGo amount (avgMonthlyReturn h) amount 1 months).getLast? with
      | none => rw [hlast] at hok; exact absurd hok (by simp)
      | some lastE =>
        rw [hlast] at hok
        refine ⟨lastE, rfl, ?_, ?_, ?_, ?_, ?_, ?_⟩ <;>
          · injection hok with hh
            rw [← hh]

theorem mem_of_getLast?_eq {α : Type} {l : List α} {a : α} (h : l.getLast? = some a) :
    a ∈ l := by
  rcases List.mem_getLast?_eq_getLast (Option.mem_def.mpr h) with ⟨hne, heq⟩
  rw [heq]
  exact List.getLast_mem hne

/-- C1: for every valid input (`amount ≥ 10`, `months` in `[1, 48]`) on
which `calculate_projection` succeeds, the `monthly_breakdown` has exactly
`months` entries whose month indices are `1, 2, ..., months` in increasing
order with no gaps (`List.range' 1 months`), and the result's `final_value`
equals the `value` of the last breakdown entry. -/
theorem C1_breakdown_shape (ticker : String) (amount : ℚ) (months : ℕ)
    (fetch : Except String (List (ℤ × ℚ)))
    (hamt : 10 ≤ amount) (hm1 : 1 ≤ months) (hm48 : months ≤ 48)
    (r : ProjectionResult)
    (hok : calculate_projection ticker amount months fetch = .ok r) :
    r.monthly_breakdown.length = months ∧
    r.monthly_breakdown.map (fun e => e.month) = List.range' 1 months ∧
    ∃ lastE, r.monthly_breakdown.getLast? = some lastE ∧ r.final_value = lastE.value := by
  cases fetch with
  | error e => exact absurd hok (by simp [calculate_projection])
  | ok h =>
    obtain ⟨lastE, hlast, hbd, hfv, _, _, _, _⟩ := calculate_ok_elim ticker amount months h r hok
    refine ⟨?_, ?_, lastE, ?_, ?_⟩
    · rw [hbd]; exact projLoopGo_length amount (avgMonthlyReturn h) amount 1 months
    · rw [hbd]; exact projLoopGo_map_month amount (avgMonthlyReturn h) amount 1 months
    · rw [hbd]; exact hlast
    · obtain ⟨x, hx⟩ := projLoopGo_value_round2 amount (avgMonthlyReturn h) amount 1 months
        lastE (mem_of_getLast?_eq hlast)
      rw [hfv, hx, round2_idem]

/-- A concrete two-month history: nineteen daily rows in month 0 and one in
month 1, all closing at 10. -/
def histFlat : List (ℤ × ℚ) := (List.replicate 19 ((0:ℤ), (10:ℚ))) ++ [(1, 10)]

theorem resampleME_histFlat : resampleME histFlat = [(0, some 10), (1, some 10)] := by
  decide

theorem avg_histFlat : avgMonthlyReturn histFlat = 0 := by
  rw [avgMonthlyReturn, resampleME_histFlat]
  simp [pctChangeDropna, mean]

/-- C1 witness: the concrete history `histFlat`, `amount = 100`,
`months = 3`. -/
theorem C1_breakdown_shape_witness :
    (10:ℚ) ≤ 100 ∧ (1 ≤ 3 ∧ 3 ≤ 48) ∧
    ∃ r, calculate_projection "AAPL" 100 3 (.ok histFlat) = .ok r ∧
      (r.monthly_breakdown.length = 3 ∧
       r.monthly_breakdown.map (fun e => e.month) = List.range' 1 3 ∧
       ∃ lastE, r.monthly_breakdown.getLast? = some lastE ∧ r.final_value = lastE.value) := by
  refine ⟨by norm_num, ⟨by norm_num, by norm_num⟩, ?_⟩
  obtain ⟨r, hr⟩ := calculate_ok_exists "AAPL" 100 3 histFlat (by decide) (by decide) (by norm_num)
  exact ⟨r, hr, C1_breakdown_shape "AAPL" 100 3 (.ok histFlat)
    (by norm_num) (by norm_num) (by norm_num) r hr⟩

/-- C2: `calculate_projection` returns an error exactly when the fetch
raised, the daily history is empty or shorter than 20 rows, or fewer than
2 monthly buckets exist after resampling; the exception-case message carries
the (normalised) ticker and the exception text; and the HTTP layer turns
any error result into a 422 whose detail is the error text verbatim, and a
success into a 200 body. -/
theorem C2_error_characterisation (ticker : String) (amount : ℚ) (months : ℕ)
    (fetch : Except String (List (ℤ × ℚ))) (hamt : 10 ≤ amount) (hm1 : 1 ≤ months) :
    ((∃ e, calculate_projection ticker amount months fetch = .error e) ↔
      (∃ msg, fetch = .error msg) ∨
      (∃ h, fetch = .ok h ∧ (h.length < 20 ∨ (resampleME h).length < 2))) ∧
    (∀ msg, fetch = .error msg →
      calculate_projection ticker amount months fetch =
        .error s!"No se pudo calcular la proyección para {pyStrip (pyUpper ticker)}: {msg}") ∧
    (∀ e, calculate_projection ticker amount months fetch = .error e →
      calculate_endpoint ticker amount months fetch = .error (422, e)) ∧
    (∀ r, calculate_projection ticker amount months fetch = .ok r →
      calculate_endpoint ticker amount months fetch = .ok r) := by
  refine ⟨?_, ?_, ?_, ?_⟩
  · cases fetch with
    | error msg =>
      constructor
      · intro _
        exact Or.inl ⟨msg, rfl⟩
      · intro _
        exact ⟨_, rfl⟩
    | ok h =>
      constructor
      · rintro ⟨e, he⟩
        by_cases h20 : h.length < 20
        · exact Or.inr ⟨h, rfl, Or.inl h20⟩
        · by_cases h2 : (resampleME h).length < 2
          · exact Or.inr ⟨h, rfl, Or.inr h2⟩
          · exfalso
            obtain ⟨r, hr⟩ := calculate_ok_exists ticker amount months h
              (by omega) (by omega) hm1
            rw [hr] at he
            exact Except.noConfusion he
      · rintro (⟨msg, hmsg⟩ | ⟨h2, hh2, hor⟩)
        · exact Except.noConfusion hmsg
        · injection hh2 with hh
          subst hh
          by_cases h20 : h.length < 20
          · apply exceptIsErr_elim
            simp only [calculate_projection]
            rw [if_pos (Or.inr h20)]
            rfl
          · rcases hor with h20' | h2'
            · omega
            · apply exceptIsErr_elim
              simp only [calculate_projection]
              rw [if_neg (by omega : ¬ (h.length = 0 ∨ h.length < 20)), if_pos h2']
              rfl
  · intro msg hmsg
    subst hmsg
    rfl
  · intro e he
    unfold calculate_endpoint
    rw [he]
  · intro r hr
    unfold calculate_endpoint
    rw [hr]

/-- C2 witness: a failing fetch for ticker `"aapl"` with exception text
`"boom"`, surfaced as a 422 with the verbatim error text. -/
theorem C2_error_characterisation_witness :
    calculate_projection "aapl" 100 1 (.error "boom") =
      .error "No se pudo calcular la proyección para AAPL: boom" ∧
    calculate_endpoint "aapl" 100 1 (.error "boom") =
      .error (422, "No se pudo calcular la proyección para AAPL: boom") := by
  have hc := C2_error_characterisation "aapl" 100 1 (.error "boom")
    (by norm_num) (by norm_num)
  have h1 := hc.2.1 "boom" rfl
  have h2 : calculate_projection "aapl" 100 1 (.error "boom") =
      .error "No se pudo calcular la proyección para AAPL: boom" := h1.trans (by decide)
  exact ⟨h2, hc.2.2.1 _ h2⟩

/-- C5 (amended): for valid input with computed average monthly return 0,
every breakdown entry's `value` is `amount` **rounded to two decimals**
(`round(current_value, 2)` in the code), every `gain` and `gain_pct` is 0,
`final_value` equals the rounded amount and `total_gain` is 0.  The entries
equal `amount` itself exactly when `amount` carries at most two decimals. -/
theorem C5_zero_avg_rounded (ticker : String) (amount : ℚ) (months : ℕ)
    (h : List (ℤ × ℚ)) (hamt : 10 ≤ amount) (hm1 : 1 ≤ months) (hm48 : months ≤ 48)
    (havg : avgMonthlyReturn h = 0) (r : ProjectionResult)
    (hok : calculate_projection ticker amount months (.ok h) = .ok r) :
    (∀ e ∈ r.monthly_breakdown, e.value = round2 amount ∧ e.gain = 0 ∧ e.gain_pct = 0) ∧
    r.final_value = round2 amount ∧ r.total_gain = 0 := by
  obtain ⟨lastE, hlast, hbd, hfv, htg, _, _, _⟩ := calculate_ok_elim ticker amount months h r hok
  rw [havg] at hlast hbd
  have hall := projLoopGo_zero_avg amount amount 1 months rfl
  have hlastE := hall lastE (mem_of_getLast?_eq hlast)
  refine ⟨?_, ?_, ?_⟩
  · intro e he
    rw [hbd] at he
    exact hall e he
  · rw [hfv, hlastE.1, round2_idem]
  · rw [htg, hlastE.1, round2_of_round2_sub]

/-- C5 witness: `histFlat` (average monthly return 0), `amount = 100`,
`months = 2`. -/
theorem C5_zero_avg_rounded_witness :
    avgMonthlyReturn histFlat = 0 ∧ (10:ℚ) ≤ 100 ∧
    ∃ r, calculate_projection "BTC-USD" 100 2 (.ok histFlat) = .ok r ∧
      ((∀ e ∈ r.monthly_breakdown, e.value = round2 100 ∧ e.gain = 0 ∧ e.gain_pct = 0) ∧
       r.final_value = round2 100 ∧ r.total_gain = 0) := by
  refine ⟨avg_histFlat, by norm_num, ?_⟩
  obtain ⟨r, hr⟩ := calculate_ok_exists "BTC-USD" 100 2 histFlat
    (by decide) (by decide) (by norm_num)
  exact ⟨r, hr, C5_zero_avg_rounded "BTC-USD" 100 2 histFlat
    (by norm_num) (by norm_num) (by norm_num) avg_histFlat r hr⟩

/-- C5 counterexample to the claim as stated: with `amount = 10.005`
(valid: ≥ 10), `months = 1` and the zero-average history `histFlat`, the
single breakdown entry's `value` is `round(10.005, 2) = 10 ≠ amount`. -/
theorem C5_value_ne_amount_cex :
    (10:ℚ) ≤ 2001/200 ∧ avgMonthlyReturn histFlat = 0 ∧
    (calculate_projection "AAPL" (2001/200) 1 (.ok histFlat)).map
      (fun r => r.monthly_breakdown.map (fun e => e.value)) = .ok [10] ∧
    ((10:ℚ) = 2001/200 → False) := by
  refine ⟨by norm_num, avg_histFlat, ?_, by norm_num⟩
  obtain ⟨r, hr⟩ := calculate_ok_exists "AAPL" (2001/200) 1 histFlat
    (by decide) (by decide) (by norm_num)
  obtain ⟨lastE, hlast, hbd, hfv, htg, _, _, _⟩ := calculate_ok_elim _ _ _ _ _ hr
  rw [hr]
  simp only [Except.map]
  rw [hbd, avg_histFlat]
  have hval : round2 (2001/200) = 10 := by
    have harg : (2001/200 : ℚ) * 100 = 2001/2 := by norm_num
    rw [round2, harg]
    have hfl : ⌊(2001/2 : ℚ)⌋ = 1000 := by norm_num [Int.floor_eq_iff]
    rw [rhe_def, hfl]
    norm_num
  simp [projLoopGo, hval]

/- ───────────────────────── C6: market change guards ────────────────────── -/

theorem fmtSigned2_zero : fmtSigned2 0 = "+0.00" := by
  have h : rhe ((0:ℚ) * 100) = 0 := by
    rw [show (0:ℚ) * 100 = 0 by ring]
    exact rhe_zero
  simp only [fmtSigned2, h]
  rfl

theorem single_close_change (cs : List ℚ) (h1 : cs.length = 1) :
    prevOf cs = latestOf cs ∧ changeOf cs = 0 ∧ changePctOf cs = 0 := by
  obtain ⟨c, rfl⟩ := List.length_eq_one.mp h1
  have hprev : prevOf [c] = latestOf [c] := by
    simp [prevOf]
  have hch : changeOf [c] = 0 := by
    simp [changeOf, hprev]
  refine ⟨hprev, hch, ?_⟩
  unfold changePctOf
  rw [hch]
  split_ifs <;> simp

theorem prev_zero_change_pct (cs : List ℚ) (h0 : prevOf cs = 0) :
    changePctOf cs = 0 := by
  unfold changePctOf
  rw [h0]
  simp

/-- C6: with exactly one closing observation the previous price is taken
equal to the latest, so `change = 0` and `change_pct = 0` — in the single
fetch the snapshot renders them `"+0.00"` / `"+0.00%"` — and whenever the
previous price is 0 the division is guarded and `change_pct = 0`; the same
holds for the batch loop of `get_top_assets`. -/
theorem C6_change_guards :
    (∀ cs : List ℚ, cs.length = 1 →
      prevOf cs = latestOf cs ∧ changeOf cs = 0 ∧ changePctOf cs = 0) ∧
    (∀ cs : List ℚ, prevOf cs = 0 → changePctOf cs = 0) ∧
    (∀ (rows : List (Option ℚ)) infoR T, (rows.filterMap id).length = 1 →
      (yfinance_data (.ok rows) infoR T).map (fun s => (s.change, s.change_percent)) =
        .ok ("+0.00", "+0.00%")) ∧
    (∀ (a : AssetSpec) (col : List (Option ℚ)) ent,
      topAssetEntry a (.ok col) = some ent →
      ((col.filterMap id).length = 1 → ent.change = 0 ∧ ent.change_pct = 0) ∧
      (prevOf (col.filterMap id) = 0 → ent.change_pct = 0)) := by
  refine ⟨single_close_change, prev_zero_change_pct, ?_, ?_⟩
  · intro rows infoR T h1
    have hle := List.length_filterMap_le id rows
    rw [h1] at hle
    have hne : ¬ rows.length = 0 := by omega
    have hcs : ¬ (rows.filterMap id).length < 1 := by omega
    obtain ⟨hprev, hch, hpct⟩ := single_close_change (rows.filterMap id) h1
    simp only [yfinance_data, if_neg hne, if_neg hcs, Except.map]
    rw [hch, hpct, fmtSigned2_zero]
    rfl
  · intro a col ent hent
    simp only [topAssetEntry] at hent
    by_cases hcs : (col.filterMap id).length < 1
    · rw [if_pos hcs] at hent
      exact absurd hent (by simp)
    · rw [if_neg hcs] at hent
      injection hent with hh
      constructor
      · intro h1
        obtain ⟨hprev, hch, hpct⟩ := single_close_change (col.filterMap id) h1
        rw [← hh]
        exact ⟨by simp [hch, round2_zero], by simp [hpct, round2_zero]⟩
      · intro h0
        rw [← hh]
        simp [prev_zero_change_pct (col.filterMap id) h0, round2_zero]

/- ───────────────────────── C8: risk-test questions ─────────────────────── -/

/-- C8: `get_risk_question` yields `""` for every 0-based index outside
`[0, 4]` and a non-empty text inside; `GET /api/risk-test/question/{n}`
yields 400 outside `[1, 5]` and, inside, the `(n-1)`-indexed question with
`total_questions = 5`. -/
theorem C8_question_bounds :
    (∀ n : ℤ, (n < 0 ∨ 4 < n) → get_risk_question n = "") ∧
    (∀ n : ℤ, 0 ≤ n → n < 5 → get_risk_question n ≠ "") ∧
    (∀ number : ℤ, (number < 1 ∨ 5 < number) →
      get_question number = .error (400, "Question number must be between 1 and 5")) ∧
    (∀ number : ℤ, 1 ≤ number → number ≤ 5 →
      get_question number =
        .ok { question_number := number, total_questions := 5,
              question := get_risk_question (number - 1) }) := by
  have hlen : (RISK_QUESTIONS.length : ℤ) = 5 := by decide
  refine ⟨?_, ?_, ?_, ?_⟩
  · intro n hn
    unfold get_risk_question
    rw [if_neg]
    rw [hlen]
    omega
  · intro n h0 h5
    interval_cases n <;> decide
  · intro number hn
    unfold get_question
    rw [if_pos]
    omega
  · intro number h1 h5
    unfold get_question
    rw [if_neg]
    omega

/- ───────────────────────── C3 / C7: ticker resolver ────────────────────── -/

/-- C3 counterexample: on `"hola que tal"` no keyword matches and no
cash-tag appears, but the fallback token loop uppercases `"hola"` to
`"HOLA"` (length 4, not a stop word) and returns it — not `"UNKNOWN"` as
the claim's third example states. -/
theorem C3_hola_cex :
    extract_ticker_from_message "hola que tal" = "HOLA" ∧
    ("HOLA" : String) ≠ "UNKNOWN" := by
  exact ⟨by decide, by decide⟩

/-- C3 (amended): the first two specified example equalities hold
(`"quiero comprar bitcoin" → "BTC-USD"`, `"$AAPL a buen precio" → "AAPL"`),
and the third input `"hola que tal"` resolves to `"HOLA"`. -/
theorem C3_resolver_examples :
    extract_ticker_from_message "quiero comprar bitcoin" = "BTC-USD" ∧
    extract_ticker_from_message "$AAPL a buen precio" = "AAPL" ∧
    extract_ticker_from_message "hola que tal" = "HOLA" := by
  exact ⟨by decide, by decide, by decide⟩

theorem keywordScan_eq_find (l : List (String × String)) (m : List Char) :
    keywordScan l m = (l.find? (fun p => substrHit p.1.toList m)).map Prod.snd := by
  induction l with
  | nil => rfl
  | cons p rest ih =>
    cases p with
    | mk kw tk =>
      by_cases hkw : substrHit kw.toList m = true
      · simp only [String.toList] at hkw
        simp [keywordScan, List.find?, hkw, String.toList]
      · simp only [String.toList] at hkw
        simp [keywordScan, List.find?, hkw, ih, String.toList]

theorem tokenScan_eq_find (ws : List (List Char)) :
    tokenScan ws = (ws.map cleanWord).find? goodToken := by
  induction ws with
  | nil => rfl
  | cons w rest ih =>
    by_cases hg : goodToken (cleanWord w) = true
    · simp [tokenScan, List.find?, hg]
    · simp [tokenScan, List.find?, hg, ih]

/-- C7: the extraction applies the spec's strict priority order — the
ticker of the first keyword (in mapping iteration order) contained in the
lowercased message; else the cash-tag capture on the uppercased message;
else the first punctuation-stripped token whose letters-only uppercased
form has length 2–5 and is not a stop word; else `"UNKNOWN"` — stated as
equality with `resolveSpec`, the spec-worded resolver. -/
theorem C7_priority_refinement (message : String) :
    extract_ticker_from_message message = resolveSpec message := by
  simp only [extract_ticker_from_message, resolveSpec]
  rw [keywordScan_eq_find, tokenScan_eq_find]

/- ───────────────────────── C4: risk classifier defaults ────────────────── -/

/-- A `json.loads` oracle that parses everything as the empty JSON object. -/
def parseEmptyObj : String → Except String PyJson := fun _ => .ok (.obj [])

/-- An LLM oracle answering `"{}"` to every prompt. -/
def llmEmptyObj : String → LLMOutcome := fun _ => .success "\x7b\x7d"

/-- C4 counterexample: a successful LLM response whose JSON parses to an
object with missing fields yields `profile = "Moderado"` with **empty**
explanation and recommendations (the per-field `.get` defaults), not the
fixed canned default; so the claim's "missing fields" case fails. -/
theorem C4_missing_fields_cex :
    evaluate_risk_profile ["a", "b", "c", "d", "e"] none llmEmptyObj parseEmptyObj =
      { profile := "Moderado", explanation := "", recommendations := "" } ∧
    ({ profile := "Moderado", explanation := "", recommendations := "" } : RiskResult) ≠
      riskDefaultResult := by
  exact ⟨by decide, by decide⟩

/-- C4 (amended): `evaluate_risk_profile` is total (never raises).  On an
LLM failure, malformed JSON or a non-object JSON value it returns exactly
the canned default; on a parsed object it fills each missing field
individually: `profile` falls back to `"Moderado"`, `explanation` and
`recommendations` to `""`. -/
theorem C4_default_behaviour (answers : List String) (userName : Option String)
    (llm : String → LLMOutcome) (parseJson : String → Except String PyJson)
    (hlen : 5 ≤ answers.length) :
    (∀ msg, llm (buildRiskPrompt answers userName) = .failure msg →
      evaluate_risk_profile answers userName llm parseJson = riskDefaultResult) ∧
    (∀ text err, llm (buildRiskPrompt answers userName) = .success text →
      parseJson (pyStrip (String.mk (removeFences (pyStrip text).toList))) = .error err →
      evaluate_risk_profile answers userName llm parseJson = riskDefaultResult) ∧
    (∀ text, llm (buildRiskPrompt answers userName) = .success text →
      parseJson (pyStrip (String.mk (removeFences (pyStrip text).toList))) = .ok .nonObj →
      evaluate_risk_profile answers userName llm parseJson = riskDefaultResult) ∧
    (∀ text fields, llm (buildRiskPrompt answers userName) = .success text →
      parseJson (pyStrip (String.mk (removeFences (pyStrip text).toList))) = .ok (.obj fields) →
      evaluate_risk_profile answers userName llm parseJson =
        { profile := jsonGetD fields "profile" "Moderado",
          explanation := jsonGetD fields "explanation" "",
          recommendations := jsonGetD fields "recommendations" "" }) := by
  refine ⟨?_, ?_, ?_, ?_⟩
  · intro msg hllm
    simp only [evaluate_risk_profile, hllm]
  · intro text err hllm hparse
    simp only [evaluate_risk_profile, hllm, hparse]
  · intro text hllm hparse
    simp only [evaluate_risk_profile, hllm, hparse]
  · intro text fields hllm hparse
    simp only [evaluate_risk_profile, hllm, hparse]

/-- An LLM oracle that always fails with a network error. -/
def llmNetworkFail : String → LLMOutcome := fun _ => .failure "network unreachable"

/-- C4 witness: five answers, a failing LLM call — the result is exactly
the canned default. -/
theorem C4_default_behaviour_witness :
    5 ≤ (["a", "b", "c", "d", "e"] : List String).length ∧
    evaluate_risk_profile ["a", "b", "c", "d", "e"] none llmNetworkFail parseEmptyObj =
      riskDefaultResult := by
  refine ⟨by decide, ?_⟩
  exact (C4_default_behaviour ["a", "b", "c", "d", "e"] none llmNetworkFail parseEmptyObj
    (by decide)).1 "network unreachable" rfl

/- ───────────────────────── C9: uniform 401 responses ───────────────────── -/

/-- C9: every failing login — email not found, missing (or empty) stored
hash, wrong password — produces the same `(401, "Email o contraseña
incorrectos")`; and every token failure of `get_current_user` named by the
claim — undecodable token, missing `sub`, no matching user — produces the
same `credentials_exception` `(401, "Token inválido o expirado")`. -/
theorem C9_uniform_auth_failures :
    (∀ (sign : ℕ → String) (verify : String → String → Bool) (db : List DBUser)
        (username password : String) e,
      login sign verify db username password = .error e → e = (401, loginFailMsg)) ∧
    (∀ (db : List DBUser), get_current_user (.error ()) db = .error credentialsException) ∧
    (∀ (db : List DBUser) (p : TokenPayload), p.sub = none →
      get_current_user (.ok p) db = .error credentialsException) ∧
    (∀ (db : List DBUser) (p : TokenPayload) (sv : String) (iv : ℤ),
      p.sub = some sv → sv.toInt? = some iv →
      db.find? (fun u => (u.id : ℤ) = iv) = none →
      get_current_user (.ok p) db = .error credentialsException) := by
  refine ⟨?_, ?_, ?_, ?_⟩
  · intro sign verify db username password e he
    unfold login at he
    split at he
    · injection he with hh
      exact hh.symm
    · split_ifs at he
      · injection he with hh
        exact hh.symm
      · injection he with hh
        exact hh.symm
  · intro db
    rfl
  · intro db p hsub
    simp [get_current_user, hsub]
  · intro db p sv iv hsub hint hfind
    simp [get_current_user, hsub, hint, hfind]

/- ───────────────────────── C10: chat response invariant ────────────────── -/

/-- C10: in every `POST /api/chat` response, `market_data` is `none` or an
error-free snapshot; it is `none` whenever the resolved ticker is
`"UNKNOWN"` or the market lookup errors; `detected_ticker` always equals
the resolver's output; and the advisor is called with exactly the coerced
`market_data` the response carries. -/
theorem C10_chat_market_data (histOf : String → Except Unit (List (Option ℚ)))
    (infoOf : String → Except Unit (Option String × Option String))
    (advisor : String → String → Option (Except String Snapshot) → String)
    (message profile : String) :
    (chat_endpoint histOf infoOf advisor message profile).detected_ticker =
      extract_ticker_from_message message ∧
    (∀ d, (chat_endpoint histOf infoOf advisor message profile).market_data = some d →
      ∃ s, d = .ok s) ∧
    (extract_ticker_from_message message = "UNKNOWN" →
      (chat_endpoint histOf infoOf advisor message profile).market_data = none) ∧
    (∀ e, get_market_data histOf infoOf (extract_ticker_from_message message) = .error e →
      (chat_endpoint histOf infoOf advisor message profile).market_data = none) ∧
    (chat_endpoint histOf infoOf advisor message profile).reply =
      advisor message profile
        (chat_endpoint histOf infoOf advisor message profile).market_data := by
  refine ⟨rfl, ?_, ?_, ?_, rfl⟩
  · intro d hd
    have hmd : (chat_endpoint histOf infoOf advisor message profile).market_data =
        coerceMarket (chatMarketRaw histOf infoOf message) := rfl
    rw [hmd] at hd
    cases hx : chatMarketRaw histOf infoOf message with
    | none => rw [hx] at hd; exact absurd hd (by simp [coerceMarket])
    | some r =>
      cases r with
      | error e => rw [hx] at hd; exact absurd hd (by simp [coerceMarket])
      | ok snap =>
        rw [hx] at hd
        simp only [coerceMarket] at hd
        injection hd with hh
        exact ⟨snap, hh.symm⟩
  · intro ht
    have hraw : chatMarketRaw histOf infoOf message = none := by
      unfold chatMarketRaw
      rw [if_neg (by simp [ht])]
    show coerceMarket (chatMarketRaw histOf infoOf message) = none
    rw [hraw]
    rfl
  · intro e he
    by_cases ht : extract_ticker_from_message message = "UNKNOWN"
    · have hraw : chatMarketRaw histOf infoOf message = none := by
        unfold chatMarketRaw
        rw [if_neg (by simp [ht])]
      show coerceMarket (chatMarketRaw histOf infoOf message) = none
      rw [hraw]
      rfl
    · have hraw : chatMarketRaw histOf infoOf message = some (.error e) := by
        unfold chatMarketRaw
        rw [if_pos (by simp [ht]), he]
      show coerceMarket (chatMarketRaw histOf infoOf message) = none
      rw [hraw]
      rfl

/- ───────────────────────── Concrete sanity evaluations ─────────────────── -/

/-- A one-observation single-ticker fetch rendered end to end. -/
theorem yfinance_one_observation_eval :
    (yfinance_data (.ok [some 5]) (.error ()) "aapl").map
      (fun s => (s.ticker, s.change, s.change_percent)) =
    .ok ("AAPL", "+0.00", "+0.00%") := by
  obtain ⟨hprev, hch, hpct⟩ := single_close_change (List.filterMap id [some (5:ℚ)]) (by decide)
  simp only [yfinance_data, Except.map]
  rw [if_neg (by decide : ¬ ([some (5:ℚ)] : List (Option ℚ)).length = 0),
    if_neg (by decide : ¬ (List.filterMap id [some (5:ℚ)]).length < 1),
    hch, hpct, fmtSigned2_zero]
  decide

/-- One batch-loop entry on a single observation: change and change_pct 0. -/
theorem topAssetEntry_one_observation_eval :
    (topAssetEntry ⟨"AAPL", "Apple", "Acciones"⟩ (.ok [some 5])).map
      (fun ent => (ent.change, ent.change_pct)) = some (0, 0) := by
  obtain ⟨hprev, hch, hpct⟩ := single_close_change [(5:ℚ)] (by decide)
  simp only [topAssetEntry, Option.map]
  rw [if_neg (by decide : ¬ (List.filterMap id [some (5:ℚ)]).length < 1)]
  simp [hch, hpct, round2_zero]

/-- `GET /api/risk-test/question/3` evaluated. -/
theorem get_question_three_eval :
    get_question 3 = .ok { question_number := 3, total_questions := 5,
                           question := get_risk_question 2 } ∧
    get_risk_question 2 ≠ "" := by
  exact ⟨by decide, by decide⟩

/-- A login against an empty users table fails with the uniform message. -/
theorem login_unknown_email_eval :
    login (fun _ => "tok") (fun _ _ => true) [] "ana@investi.app" "pw" =
      .error (401, loginFailMsg) := rfl

/-- A token decode failure yields the uniform credentials exception. -/
theorem get_current_user_bad_token_eval :
    get_current_user (.error ()) [] = .error credentialsException := rfl

/-- A chat message with no recognisable asset: `market_data` is `None` and
`detected_ticker` is the resolver's output. -/
theorem chat_no_asset_eval :
    (chat_endpoint (fun _ => .error ()) (fun _ => .error ()) (fun _ _ _ => "reply")
      "???" "Moderado").market_data = none ∧
    (chat_endpoint (fun _ => .error ()) (fun _ => .error ()) (fun _ _ _ => "reply")
      "???" "Moderado").detected_ticker = "UNKNOWN" := by
  exact ⟨by decide, by decide⟩

/-- A chat message whose market lookup errors: `market_data` is coerced to
`None` even though a ticker was detected. -/
theorem chat_lookup_error_eval :
    (chat_endpoint (fun _ => .error ()) (fun _ => .error ()) (fun _ _ _ => "reply")
      "quiero comprar bitcoin" "Agresivo").market_data = none ∧
    (chat_endpoint (fun _ => .error ()) (fun _ => .error ()) (fun _ _ _ => "reply")
      "quiero comprar bitcoin" "Agresivo").detected_ticker = "BTC-USD" := by
  exact ⟨by decide, by decide⟩

/-- The resolver's priority stages on further inputs: a cash-tag win when
no keyword matches; the keyword stage in mapping iteration order (the
`nflx` entry precedes `bitcoin`, so the first containment match wins even
against an earlier word of the message); the `-USD` capture suffix; and the
`"UNKNOWN"` sentinel when every stage fails. -/
theorem resolver_stage_eval :
    extract_ticker_from_message "compra $ZM ya" = "ZM" ∧
    extract_ticker_from_message "bitcoin o nflx" = "NFLX" ∧
    extract_ticker_from_message "$BTC-USD sube" = "BTC-USD" ∧
    extract_ticker_from_message "¿?" = "UNKNOWN" := by
  exact ⟨by decide, by decide, by decide, by decide⟩

/-- A successful projection on `histFlat` (flat prices, so zero average
return): scalar output fields evaluated end to end. -/
theorem calculate_concrete_eval :
    (calculate_projection "AAPL" 100 1 (.ok histFlat)).map
      (fun r => (r.ticker, r.initial_amount, r.final_value, r.total_gain, r.total_gain_pct)) =
      .ok ("AAPL", 100, 100, 0, 0) := by
  obtain ⟨r, hr⟩ := calculate_ok_exists "AAPL" 100 1 histFlat
    (by decide) (by decide) (by norm_num)
  obtain ⟨lastE, hlast, hbd, hfv, htg, hpct, htk, hini⟩ := calculate_ok_elim _ _ _ _ _ hr
  rw [avg_histFlat] at hlast
  have hz := projLoopGo_zero_avg 100 100 1 1 rfl lastE (mem_of_getLast?_eq hlast)
  have h100 : round2 (100:ℚ) = 100 := by
    rw [round2, show (100:ℚ) * 100 = ((10000:ℤ) : ℚ) by norm_num, rhe_intCast]
    norm_num
  have hval : lastE.value = 100 := by rw [hz.1, h100]
  have e1 : r.ticker = "AAPL" := by rw [htk]; decide
  have e2 : r.initial_amount = 100 := by rw [hini, h100]
  have e3 : r.final_value = 100 := by rw [hfv, hval, h100]
  have e4 : r.total_gain = 0 := by
    rw [htg, hval, show (100:ℚ) - 100 = 0 by norm_num, round2_zero]
  have e5 : r.total_gain_pct = 0 := by
    rw [hpct, hval, show ((100:ℚ) - 100) / 100 * 100 = 0 by norm_num, round2_zero]
  rw [hr]
  simp only [Except.map]
  rw [e1, e2, e3, e4, e5]

/-- A successful login: the token response carries the signed token and the
user's id and name. -/
theorem login_success_eval :
    login (fun _ => "tok") (fun _ _ => true)
      [{ id := 7, name := "Ana", email := some "ana@investi.app",
         password_hash := some "h" }]
      "ana@investi.app" "pw" =
    .ok { access_token := "tok", token_type := "bearer", user_id := 7, name := "Ana" } := by
  decide

/-- The risk classifier on a well-formed LLM response: the parsed fields are
passed through. -/
theorem evaluate_risk_profile_parsed_eval :
    evaluate_risk_profile ["a", "b", "c", "d", "e"] (some "Ana")
      (fun _ => .success "x")
      (fun _ => .ok (.obj [("profile", "Agresivo"), ("explanation", "E"),
                           ("recommendations", "R")])) =
    { profile := "Agresivo", explanation := "E", recommendations := "R" } := by
  decide
